import Mathlib

/-!
Verification of the F1 dashboard (`streamlit-f1-app.py`) against its design
specification.  The relevant program state and functions are shallowly
embedded below: pandas rows become Lean structures, nullable DataFrame cells
become `Option`, durations in seconds become `ℚ`, and each source function
becomes a Lean function with the same branching structure.
-/

/-- Telemetry channels of one lap, mirroring the columns of the telemetry
DataFrame returned by the data provider: `Distance`, `Speed` always present,
`Throttle` and `Brake` optional (their presence is tested with
`'...' in telemetry.columns` in the source).  `brake` holds the raw 0-1
values as stored. -/
structure Telemetry where
  distance : List ℚ
  speed : List ℚ
  throttle : Option (List ℚ)
  brake : Option (List ℚ)
  deriving DecidableEq

/-- One row of `session.laps`: the fields of the lap DataFrame that the
program reads.  `lapTime` is `none` when the `LapTime` cell is null (the lap
has no valid time); the three sector times and `SpeedI2` are independently
nullable; `compound` is `none` when the `Compound` field is absent. -/
structure Lap where
  driver : String
  lapNumber : Nat
  lapTime : Option ℚ
  compound : Option String
  sector1 : Option ℚ
  sector2 : Option ℚ
  sector3 : Option ℚ
  speedI2 : Option ℚ
  telemetry : Telemetry
  deriving DecidableEq

/-- A loaded session: its lap table, the `session.drivers` identifier list
(in the session's natural order), and the `get_driver` mapping from driver
identifier to display abbreviation. -/
structure Session where
  laps : List Lap
  drivers : List String
  abbreviations : List (String × String)
  deriving DecidableEq

/-- `session.laps.pick_driver(driver)`: the sub-table of laps belonging to
the given driver, in source order. -/
def pick_driver (s : Session) (d : String) : List Lap :=
  s.laps.filter (fun l => l.driver == d)

/-- `session.get_driver(driver)['Abbreviation']`. -/
def Session.abbrevOf (s : Session) (d : String) : String :=
  ((s.abbreviations.find? (fun p => p.1 == d)).map Prod.snd).getD d

/-- One row of the table built by `create_lap_time_chart` (the dict appended
to `lap_times_data`).  `lapTime` keeps the DataFrame's nullable-cell type
even though the source only ever stores a non-null value there. -/
structure LapRow where
  driver : String
  lapNumber : Nat
  lapTime : Option ℚ
  compound : String
  sector1 : Option ℚ
  sector2 : Option ℚ
  sector3 : Option ℚ
  deriving DecidableEq

/-- The body of the inner loop of `create_lap_time_chart`: emit a row iff
`pd.notnull(lap['LapTime'])`, with `Compound` defaulting to `"Unknown"`. -/
def lapRowOfLap (ab : String) (l : Lap) : Option LapRow :=
  match l.lapTime with
  | none => none
  | some t =>
      some { driver := ab, lapNumber := l.lapNumber, lapTime := some t,
             compound := l.compound.getD "Unknown",
             sector1 := l.sector1, sector2 := l.sector2, sector3 := l.sector3 }

/-- `create_lap_time_chart(session, selected_drivers)`: for each selected
driver in order, for each of that driver's laps in order, one row per lap
with a non-null lap time; returns the DataFrame when at least one row was
collected and `None` otherwise
(`return pd.DataFrame(lap_times_data) if lap_times_data else None`). -/
def create_lap_time_chart (s : Session) (selected : List String) :
    Option (List LapRow) :=
  let rows := selected.flatMap
    (fun d => (pick_driver s d).filterMap (lapRowOfLap (s.abbrevOf d)))
  if rows.isEmpty then none else some rows

/-- Mean of a pandas numeric column: null cells are ignored; the result is
NaN (modelled as `none`) when no non-null value remains. -/
def pandasMean (xs : List (Option ℚ)) : Option ℚ :=
  if (xs.filterMap id).isEmpty then none
  else some ((xs.filterMap id).sum / (xs.filterMap id).length)

/-- `Series.std()` of a pandas column: sample statistic over the non-null
cells, NaN (modelled as `none`) when fewer than two remain.  The payload
carried here is the sample variance; the standard deviation is its square
root, which is present for exactly the same inputs and is never compared
numerically by the program, so presence and order of this cell are
faithful. -/
def pandasStd (xs : List (Option ℚ)) : Option ℚ :=
  if (xs.filterMap id).length < 2 then none
  else
    some (((xs.filterMap id).map
      (fun x => (x - (xs.filterMap id).sum / (xs.filterMap id).length) ^ 2)).sum
        / (((xs.filterMap id).length : ℚ) - 1))

/-- Insert into a sorted list, keeping the inserted element before later
ties (the stable placement used by the sorts in this development). -/
def insertLe (le : α → α → Bool) (x : α) : List α → List α
  | [] => [x]
  | y :: ys => if le x y then x :: y :: ys else y :: insertLe le x ys

/-- Stable insertion sort; models `sorted(...)` and
`DataFrame.sort_values(...)` (ascending, which is their default). -/
def insSort (le : α → α → Bool) : List α → List α
  | [] => []
  | x :: xs => insertLe le x (insSort le xs)

/-- Ordering used by `sort_values` on a nullable numeric column: numeric
ascending with null (NaN) placed last, pandas' default `na_position`. -/
def leOpt (a b : Option ℚ) : Bool :=
  match a, b with
  | some x, some y => x ≤ y
  | some _, none => true
  | none, some _ => false
  | none, none => true

/-- Python's string ordering (lexicographic on code points), written on the
character lists underlying `String`. -/
def pyStrLt : List Char → List Char → Bool
  | [], [] => false
  | [], _ :: _ => true
  | _ :: _, [] => false
  | a :: as, b :: bs =>
      if a.toNat < b.toNat then true
      else if b.toNat < a.toNat then false
      else pyStrLt as bs

/-- Python `a <= b` on strings. -/
def strLe (a b : String) : Bool := !(pyStrLt b.data a.data)

/-- Python `sorted(...)` on a list of strings. -/
def pySorted (xs : List String) : List String := insSort strLe xs

/-- The laps of `laps` whose `LapTime` is non-null. -/
def validLaps (laps : List Lap) : List Lap :=
  laps.filter (fun l => l.lapTime.isSome)

/-- The lap time of a lap, defaulting to `0`; only ever applied to laps
already known to carry a time. -/
def timeVal (l : Lap) : ℚ := l.lapTime.getD 0

/-- Running minimum over lap times; on ties the earlier (accumulator)
element is kept, so the first occurrence of the minimum wins. -/
def minLap (b : Lap) : List Lap → Lap
  | [] => b
  | c :: cs => minLap (if timeVal c < timeVal b then c else b) cs

/-- `Laps.pick_fastest()` of the data provider, as the specification
describes it: the lap with minimal lap time among the laps that have one
(first such lap on a tie), or `None` when the selection has no timed lap. -/
def pick_fastest (laps : List Lap) : Option Lap :=
  match validLaps laps with
  | [] => none
  | l :: ls => some (minLap l ls)

/-- `Laps.pick_lap(n)` of the data provider: the sub-selection of laps whose
`LapNumber` equals `n` (possibly empty; never `None`). -/
def pick_lap (laps : List Lap) (n : Nat) : List Lap :=
  laps.filter (fun l => l.lapNumber == n)

/-- `get_telemetry()` on a lap selection: the per-lap channels concatenated
in order; an optional channel is present only when the selection is
non-empty and every selected lap carries it. -/
def selTelemetry (laps : List Lap) : Telemetry :=
  { distance := laps.flatMap (fun l => l.telemetry.distance)
    speed := laps.flatMap (fun l => l.telemetry.speed)
    throttle :=
      if laps.isEmpty || laps.any (fun l => l.telemetry.throttle.isNone)
      then none
      else some (laps.flatMap (fun l => l.telemetry.throttle.getD []))
    brake :=
      if laps.isEmpty || laps.any (fun l => l.telemetry.brake.isNone)
      then none
      else some (laps.flatMap (fun l => l.telemetry.brake.getD [])) }

/-- The figure assembled by `create_telemetry_plot` once a lap selection is
in hand: a speed trace over distance, an optional throttle trace, an
optional brake trace whose displayed values are the raw ones multiplied by
100 (`telemetry['Brake'] * 100`), and the `LapNumber` values used in the
title. -/
structure Fig where
  speedX : List ℚ
  speedY : List ℚ
  throttle : Option (List ℚ)
  brake : Option (List ℚ)
  titleLaps : List Nat
  deriving DecidableEq

/-- Figure construction from the selected laps (source lines 90-127). -/
def buildFig (laps : List Lap) : Fig :=
  let t := selTelemetry laps
  { speedX := t.distance
    speedY := t.speed
    throttle := t.throttle
    brake := t.brake.map (List.map (fun b => b * 100))
    titleLaps := laps.map (fun l => l.lapNumber) }

/-- `create_telemetry_plot(session, driver, lap_number=None)`.  The Python
guard `if lap_number:` is truthiness: both `None` and `0` take the
`pick_fastest` branch.  In the `pick_lap` branch the selection is a
DataFrame, never `None`, so the subsequent `if lap is not None:` check
always passes there; only a `pick_fastest` result can be `None`. -/
def create_telemetry_plot (s : Session) (driver : String)
    (lapNumber : Option Nat) : Option Fig :=
  match lapNumber with
  | some n =>
      if n ≠ 0 then some (buildFig (pick_lap (pick_driver s driver) n))
      else (pick_fastest (pick_driver s driver)).map (fun l => buildFig [l])
  | none => (pick_fastest (pick_driver s driver)).map (fun l => buildFig [l])

/-- The caller's guard around the telemetry figure
(`if fig_telemetry: st.plotly_chart(...)`, lines 240-241): the chart that is
actually plotted, `none` when nothing is rendered. -/
def render_telemetry (fig : Option Fig) : Option Fig :=
  match fig with
  | some f => some f
  | none => none

/-- One row of the "Average Lap Times" expander table (lines 266-275). -/
structure AvgRow where
  driver : String
  averageTime : Option ℚ
  stdDev : Option ℚ
  lapsCompleted : Nat
  deriving DecidableEq

/-- The dict appended for one driver: present iff `not driver_laps.empty`,
with `mean()`/`std()` over the `LapTime` column and
`'Laps Completed': len(driver_laps)`. -/
def avgRowFor (s : Session) (d : String) : Option AvgRow :=
  let dl := pick_driver s d
  if dl.isEmpty then none
  else some { driver := d,
              averageTime := pandasMean (dl.map (fun l => l.lapTime)),
              stdDev := pandasStd (dl.map (fun l => l.lapTime)),
              lapsCompleted := dl.length }

/-- The "Average Lap Times" table as displayed: one row per selected driver
with a non-empty lap selection, sorted by `sort_values('Average Time')`. -/
def average_lap_times (s : Session) (selected : List String) : List AvgRow :=
  insSort (fun a b => leOpt a.averageTime b.averageTime)
    (selected.filterMap (avgRowFor s))

/-- One row of the "Fastest Laps" expander table (lines 248-257). -/
structure FastRow where
  driver : String
  time : Option ℚ
  lap : Nat
  speed : Option ℚ
  deriving DecidableEq

/-- The "Fastest Laps" table as displayed: for each selected driver the
`pick_fastest` lap when it exists (`if driver_fastest is not None`), sorted
by `sort_values('Time')`. -/
def fastest_laps (s : Session) (selected : List String) : List FastRow :=
  insSort (fun a b => leOpt a.time b.time)
    (selected.filterMap (fun d =>
      (pick_fastest (pick_driver s d)).map (fun l =>
        { driver := d, time := l.lapTime, lap := l.lapNumber,
          speed := l.speedI2 })))

/-- Duplicate-free key list (first occurrences kept, order preserved). -/
def uniqueKeys (xs : List String) : List String :=
  xs.foldr (fun x acc => if x ∈ acc then acc else x :: acc) []

/-- `lap_data[['Driver'] + sector_cols].groupby('Driver').mean()`
(lines 204-206): one row per distinct driver key (pandas sorts group keys),
each sector cell the pandas mean of that driver's rows' values for that
sector. -/
def sector_averages (rows : List LapRow) :
    List (String × (Option ℚ × Option ℚ × Option ℚ)) :=
  (insSort strLe (uniqueKeys (rows.map (fun r => r.driver)))).map (fun d =>
    let rs := rows.filter (fun r => r.driver == d)
    (d, (pandasMean (rs.map (fun r => r.sector1)),
         pandasMean (rs.map (fun r => r.sector2)),
         pandasMean (rs.map (fun r => r.sector3)))))

/-- One UI element displayed by the lap-analysis tab: a header or
subheader (`st.header`/`st.subheader`), the lap-time line chart, or the
sector-averages bar chart (`st.plotly_chart`).  The source has no element
that could carry a no-data message in this tab, so no such constructor
exists. -/
inductive Widget where
  | header (title : String)
  | subheader (title : String)
  | lapChart (rows : List LapRow)
  | sectorChart (cells : List (String × (Option ℚ × Option ℚ × Option ℚ)))
  deriving DecidableEq

/-- Everything tab 1 of the dashboard displays, in order (lines 187-223):
the header always; the two charts and the sector subheader only under
`if lap_data is not None:`.  That `if` has no else branch, so when the
builder signals no data the tab shows nothing beyond the header. -/
def lap_analysis_widgets (s : Session) (selected : List String) :
    List Widget :=
  Widget.header "Lap Times Analysis" ::
    (match create_lap_time_chart s selected with
     | some rows =>
         [Widget.lapChart rows,
          Widget.subheader "Sector Times Analysis",
          Widget.sectorChart (sector_averages rows)]
     | none => [])

/-- `load_session_data(year, grand_prix, session_type)` with the provider
fetch abstracted as its outcome: on success the session is returned; on any
exception `st.error(f"Error loading session data: {str(e)}")` is shown and
`None` is returned.  Result: (returned session, displayed error). -/
def load_session_data (fetch : Except String Session) :
    Option Session × Option String :=
  match fetch with
  | .ok s => (some s, none)
  | .error e => (none, some ("Error loading session data: " ++ e))

/-- The UI state owned by `st.session_state` that the load button touches. -/
structure AppState where
  session : Option Session
  drivers : Option (List String)
  deriving DecidableEq

/-- The "Load Session Data" button handler (lines 164-170): on a successful
load the state is replaced (`drivers := sorted(session.drivers)`) and a
success banner shown; otherwise the state is left untouched.  Result:
(new state, displayed error, success banner shown). -/
def handle_load_click (a : AppState) (fetch : Except String Session) :
    AppState × Option String × Bool :=
  match load_session_data fetch with
  | (some s, e) =>
      ({ session := some s, drivers := some (pySorted s.drivers) }, e, true)
  | (none, e) => (a, e, false)

/-- The option list of the "Select Drivers to Compare" multiselect
(line 179): the stored `sorted(session.drivers)`. -/
def driver_options (s : Session) : List String := pySorted s.drivers

/-- The default of the multiselect (line 180): the first three entries of
the stored sorted driver list. -/
def driver_default (s : Session) : List String := (pySorted s.drivers).take 3

/-! ### Concrete sessions used to instantiate the theorems -/

/-- Empty telemetry. -/
def noTel : Telemetry := ⟨[], [], none, none⟩

/-- A bare lap with the given driver, number and lap time. -/
def mkLap (d : String) (n : Nat) (t : Option ℚ) : Lap :=
  { driver := d, lapNumber := n, lapTime := t, compound := none,
    sector1 := none, sector2 := none, sector3 := none, speedI2 := none,
    telemetry := noTel }

/-- A session whose only driver has a single lap without a valid lap time. -/
def exC2 : Session := ⟨[mkLap "44" 1 none], ["44"], []⟩

/-- A session whose driver list is not in code-point order. -/
def exS10 : Session := ⟨[], ["9", "10", "2", "33"], []⟩

/-- Telemetry with all channels present and raw 0-1 brake values. -/
def telA : Telemetry := ⟨[0, 100], [280, 300], some [50, 100], some [0, 1]⟩

/-- A single timed lap carrying `telA`. -/
def lapT1 : Lap := { mkLap "1" 1 (some 90) with telemetry := telA }

/-- A one-driver, one-lap session for the telemetry claims. -/
def exT : Session := ⟨[lapT1], ["1"], []⟩

/-- Two drivers with timed laps (and sector-1 values for driver A). -/
def exF : Session :=
  ⟨[{ mkLap "A" 1 (some 91) with sector1 := some 30 },
    { mkLap "A" 2 (some 90) with sector1 := some 32 },
    mkLap "B" 1 (some 89)], ["A", "B"], []⟩

/-! ### Sorting lemmas -/

theorem insertLe_perm (le : α → α → Bool) (x : α) (l : List α) :
    (insertLe le x l).Perm (x :: l) := by
  induction l with
  | nil => simp [insertLe]
  | cons y ys ih =>
    simp only [insertLe]
    split
    · exact List.Perm.refl _
    · exact (ih.cons y).trans (List.Perm.swap x y ys)

theorem insSort_perm (le : α → α → Bool) (l : List α) :
    (insSort le l).Perm l := by
  induction l with
  | nil => simp [insSort]
  | cons x xs ih =>
    exact (insertLe_perm le x (insSort le xs)).trans (ih.cons x)

theorem mem_insSort (le : α → α → Bool) (l : List α) (a : α) :
    a ∈ insSort le l ↔ a ∈ l :=
  (insSort_perm le l).mem_iff

theorem insertLe_pairwise (le : α → α → Bool)
    (htrans : ∀ a b c, le a b = true → le b c = true → le a c = true)
    (htotal : ∀ a b, (le a b || le b a) = true)
    (x : α) (l : List α) (hl : l.Pairwise (fun a b => le a b = true)) :
    (insertLe le x l).Pairwise (fun a b => le a b = true) := by
  induction l with
  | nil => simp [insertLe]
  | cons y ys ih =>
    rcases List.pairwise_cons.mp hl with ⟨hy, hys⟩
    by_cases h : le x y = true
    · simp only [insertLe, h, if_true]
      refine List.pairwise_cons.mpr ⟨?_, hl⟩
      intro z hz
      rcases hz with _ | hz
      · exact h
      · exact htrans x y z h (hy z (by assumption))
    · simp only [insertLe, h, if_false]
      refine List.pairwise_cons.mpr ⟨?_, ih hys⟩
      intro z hz
      have hz' : z ∈ x :: ys := (insertLe_perm le x ys).mem_iff.mp hz
      rcases hz' with _ | hz'
      · have := htotal x y
        cases hxy : le x y with
        | true => exact absurd hxy h
        | false => simpa [hxy] using this
      · exact hy z (by assumption)

theorem insSort_pairwise (le : α → α → Bool)
    (htrans : ∀ a b c, le a b = true → le b c = true → le a c = true)
    (htotal : ∀ a b, (le a b || le b a) = true) (l : List α) :
    (insSort le l).Pairwise (fun a b => le a b = true) := by
  induction l with
  | nil => simp [insSort]
  | cons x xs ih => exact insertLe_pairwise le htrans htotal x _ ih

/-! ### Comparator facts -/

theorem leOpt_trans (a b c : Option ℚ) (h1 : leOpt a b = true)
    (h2 : leOpt b c = true) : leOpt a c = true := by
  cases a <;> cases b <;> cases c <;> simp_all [leOpt]
  exact le_trans h1 h2

theorem leOpt_total (a b : Option ℚ) : (leOpt a b || leOpt b a) = true := by
  cases a <;> cases b <;> simp [leOpt, le_total]

theorem pyStrLt_false_trans :
    ∀ (a b c : List Char), pyStrLt b a = false → pyStrLt c b = false →
      pyStrLt c a = false := by
  intro a
  induction a with
  | nil =>
    intro b c _ _
    cases c <;> simp [pyStrLt]
  | cons aa as ih =>
    intro b c h1 h2
    cases b with
    | nil => simp [pyStrLt] at h1
    | cons bb bs =>
      cases c with
      | nil => simp [pyStrLt] at h2
      | cons cc cs =>
        simp only [pyStrLt] at h1 h2 ⊢
        split_ifs at h1 h2 ⊢ <;> try omega
        all_goals first
          | rfl
          | (exact ih bs cs h1 h2)

theorem pyStrLt_asymm :
    ∀ (a b : List Char), pyStrLt a b = true → pyStrLt b a = false := by
  intro a
  induction a with
  | nil =>
    intro b _
    cases b <;> simp [pyStrLt]
  | cons aa as ih =>
    intro b h
    cases b with
    | nil => simp [pyStrLt] at h
    | cons bb bs =>
      simp only [pyStrLt] at h ⊢
      split_ifs at h ⊢ <;> try omega
      all_goals first
        | rfl
        | (exact ih bs h)

theorem strLe_trans (a b c : String) (h1 : strLe a b = true)
    (h2 : strLe b c = true) : strLe a c = true := by
  simp only [strLe, Bool.not_eq_true', Bool.not_eq_eq_eq_not] at h1 h2 ⊢
  exact pyStrLt_false_trans a.data b.data c.data h1 h2

theorem strLe_total (a b : String) : (strLe a b || strLe b a) = true := by
  simp only [strLe]
  cases h : pyStrLt b.data a.data with
  | false => simp
  | true => simp [pyStrLt_asymm _ _ h]

/-! ### Facts about the fastest-lap selection -/

theorem minLap_mem : ∀ (cs : List Lap) (b : Lap), minLap b cs ∈ b :: cs := by
  intro cs
  induction cs with
  | nil => intro b; simp [minLap]
  | cons c cs ih =>
    intro b
    simp only [minLap]
    rcases List.mem_cons.mp (ih (if timeVal c < timeVal b then c else b)) with h | h
    · rw [h]; split <;> simp
    · simp [List.mem_cons, h]

theorem minLap_le_acc : ∀ (cs : List Lap) (b : Lap),
    timeVal (minLap b cs) ≤ timeVal b := by
  intro cs
  induction cs with
  | nil => intro b; simp [minLap]
  | cons c cs ih =>
    intro b
    simp only [minLap]
    refine le_trans (ih _) ?_
    split
    · exact le_of_lt (by assumption)
    · exact le_refl _

theorem minLap_le : ∀ (cs : List Lap) (b : Lap), ∀ c ∈ cs,
    timeVal (minLap b cs) ≤ timeVal c := by
  intro cs
  induction cs with
  | nil => intro b c hc; simp at hc
  | cons c0 cs ih =>
    intro b c hc
    simp only [minLap]
    rcases List.mem_cons.mp hc with h | h
    · rw [h]
      refine le_trans (minLap_le_acc cs _) ?_
      split
      · exact le_refl _
      · exact le_of_not_lt (by assumption)
    · exact ih _ c h

theorem minLap_earliest : ∀ (cs : List Lap) (b : Lap),
    (b :: cs).Pairwise (fun x y => x.lapNumber < y.lapNumber) →
    ∀ x ∈ b :: cs, timeVal x = timeVal (minLap b cs) →
      (minLap b cs).lapNumber ≤ x.lapNumber := by
  intro cs
  induction cs with
  | nil =>
    intro b _ x hx _
    rcases List.mem_cons.mp hx with h | h
    · rw [h]; simp [minLap]
    · simp at h
  | cons c cs ih =>
    intro b hp x hx ht
    rcases List.pairwise_cons.mp hp with ⟨hb, hp'⟩
    rcases List.pairwise_cons.mp hp' with ⟨hc, hcs⟩
    have hbc : b.lapNumber < c.lapNumber := hb c (by simp)
    have hp2 : ((if timeVal c < timeVal b then c else b) :: cs).Pairwise
        (fun x y => x.lapNumber < y.lapNumber) := by
      refine List.pairwise_cons.mpr ⟨?_, hcs⟩
      intro z hz
      split
      · exact hc z hz
      · exact hb z (by simp [hz])
    simp only [minLap] at ht ⊢
    by_cases hlt : timeVal c < timeVal b
    · simp only [if_pos hlt] at ht hp2 ⊢
      rcases List.mem_cons.mp hx with h | h
      · -- x = b: its time cannot equal the minimum, which is at most timeVal c
        exfalso
        have h1 := minLap_le_acc cs c
        rw [h] at ht
        rw [← ht] at h1
        exact absurd (lt_of_le_of_lt h1 hlt) (lt_irrefl _)
      · exact ih c hp2 x h ht
    · simp only [if_neg hlt] at ht hp2 ⊢
      rcases List.mem_cons.mp hx with h | h
      · exact ih b hp2 x (by simp [h]) ht
      · rcases List.mem_cons.mp h with h2 | h2
        · -- x = c: the accumulator b ties as well, and is earlier
          have h1 := minLap_le_acc cs b
          have hbc' : timeVal b ≤ timeVal c := le_of_not_lt hlt
          have htb : timeVal b = timeVal (minLap b cs) := by
            refine le_antisymm ?_ h1
            rw [← ht, h2]
            exact hbc'
          have hlow := ih b hp2 b (by simp) htb
          refine le_trans hlow ?_
          rw [h2]
          exact le_of_lt hbc
        · exact ih b hp2 x (by simp [h2]) ht

theorem validLaps_time (laps : List Lap) (l : Lap) (h : l ∈ validLaps laps) :
    l.lapTime = some (timeVal l) := by
  have := List.of_mem_filter h
  cases hl : l.lapTime with
  | none => rw [hl] at this; simp at this
  | some t => simp [timeVal, hl]

theorem pick_fastest_spec (laps : List Lap) (l : Lap)
    (h : pick_fastest laps = some l) :
    l ∈ validLaps laps ∧ ∀ x ∈ validLaps laps, timeVal l ≤ timeVal x := by
  unfold pick_fastest at h
  cases hv : validLaps laps with
  | nil => rw [hv] at h; simp at h
  | cons v vs =>
    rw [hv] at h
    have hl : l = minLap v vs := by simpa using h.symm
    constructor
    · rw [hl]; exact minLap_mem vs v
    · intro x hx
      rcases List.mem_cons.mp hx with h2 | h2
      · rw [hl, h2]; exact minLap_le_acc vs v
      · rw [hl]; exact minLap_le vs v x h2

theorem pick_fastest_earliest (laps : List Lap) (l : Lap)
    (hnum : laps.Pairwise (fun a b => a.lapNumber < b.lapNumber))
    (h : pick_fastest laps = some l) :
    ∀ x ∈ validLaps laps, timeVal x = timeVal l → l.lapNumber ≤ x.lapNumber := by
  unfold pick_fastest at h
  cases hv : validLaps laps with
  | nil => rw [hv] at h; simp at h
  | cons v vs =>
    rw [hv] at h
    have hl : l = minLap v vs := by simpa using h.symm
    have hnum' : (v :: vs).Pairwise (fun a b => a.lapNumber < b.lapNumber) := by
      rw [← hv]
      exact hnum.sublist (List.filter_sublist laps)
    intro x hx ht
    rw [hl]
    exact minLap_earliest vs v hnum' x hx (by rw [← hl, ht])

theorem pick_fastest_none (laps : List Lap) :
    pick_fastest laps = none ↔ validLaps laps = [] := by
  unfold pick_fastest
  cases validLaps laps <;> simp

/-! ### Facts about the pandas column statistics -/

theorem pandasMean_none_iff (xs : List (Option ℚ)) :
    pandasMean xs = none ↔ xs.filterMap id = [] := by
  unfold pandasMean
  cases h : (xs.filterMap id).isEmpty with
  | true => simp [List.isEmpty_iff.mp h]
  | false =>
    simp only [Bool.false_eq_true, if_false]
    constructor
    · intro hc; cases hc
    · intro hnil
      rw [hnil] at h
      simp at h

theorem pandasMean_mul (xs : List (Option ℚ)) (m : ℚ)
    (h : pandasMean xs = some m) :
    m * (xs.filterMap id).length = (xs.filterMap id).sum := by
  unfold pandasMean at h
  cases he : (xs.filterMap id).isEmpty with
  | true => rw [he] at h; simp at h
  | false =>
    rw [he] at h
    simp only [Bool.false_eq_true, if_false, Option.some.injEq] at h
    have hne : (xs.filterMap id).length ≠ 0 := by
      rw [List.isEmpty_eq_false_iff_exists_mem] at he
      rcases he with ⟨a, ha⟩
      have := List.length_pos.mpr (List.ne_nil_of_mem ha)
      omega
    have hq : ((xs.filterMap id).length : ℚ) ≠ 0 := by
      exact_mod_cast hne
    rw [← h]
    field_simp

theorem pandasStd_isSome (xs : List (Option ℚ)) :
    (pandasStd xs).isSome ↔ 2 ≤ (xs.filterMap id).length := by
  unfold pandasStd
  by_cases h : (xs.filterMap id).length < 2
  · simp [h]
  · simp [h]
    omega

theorem length_filterMap_lapTime : ∀ dl : List Lap,
    (dl.filterMap (fun l => l.lapTime)).length = (validLaps dl).length := by
  intro dl
  induction dl with
  | nil => simp [validLaps]
  | cons l ls ih =>
    cases h : l.lapTime with
    | none =>
      simp only [List.filterMap_cons, h, validLaps, List.filter_cons,
        Option.isSome] at *
      simpa using ih
    | some t =>
      simp only [List.filterMap_cons, h, validLaps, List.filter_cons,
        Option.isSome, List.length_cons] at *
      simpa using ih

/-! ### Small helpers about the lap-table builder -/

theorem lapRowOfLap_eq_none (ab : String) (l : Lap) :
    lapRowOfLap ab l = none ↔ l.lapTime = none := by
  unfold lapRowOfLap
  cases l.lapTime <;> simp

theorem lapRowOfLap_isSome (ab : String) (l : Lap) (r : LapRow)
    (h : lapRowOfLap ab l = some r) : r.lapTime.isSome := by
  unfold lapRowOfLap at h
  cases hl : l.lapTime with
  | none => rw [hl] at h; cases h
  | some t => rw [hl] at h; cases h; rfl

theorem create_lap_time_chart_some (s : Session) (selected : List String)
    (rows : List LapRow) (h : create_lap_time_chart s selected = some rows) :
    rows = selected.flatMap
      (fun d => (pick_driver s d).filterMap (lapRowOfLap (s.abbrevOf d))) := by
  simp only [create_lap_time_chart] at h
  split at h
  · cases h
  · exact (Option.some.inj h).symm

theorem mem_uniqueKeys (xs : List String) :
    ∀ y, y ∈ uniqueKeys xs ↔ y ∈ xs := by
  induction xs with
  | nil => intro y; simp [uniqueKeys]
  | cons x xs ih =>
    intro y
    simp only [uniqueKeys, List.foldr_cons] at ih ⊢
    by_cases h : x ∈ xs.foldr (fun x acc => if x ∈ acc then acc else x :: acc) []
    · rw [if_pos h, ih y]
      constructor
      · intro hy; exact List.mem_cons_of_mem x hy
      · intro hy
        rcases List.mem_cons.mp hy with h2 | h2
        · rw [h2]; exact (ih x).mp h
        · exact h2
    · rw [if_neg h]
      simp only [List.mem_cons, ih y]

/-! ### The claims -/

/-- C1: for every session and driver selection, every row produced by
`create_lap_time_chart` has a non-null lap time — a lap whose lap-time field
is absent is skipped entirely — so re-filtering the output for non-null lap
time is a no-op. -/
theorem C1_lap_table_nonnull (s : Session) (selected : List String)
    (rows : List LapRow) (h : create_lap_time_chart s selected = some rows) :
    (∀ r ∈ rows, r.lapTime.isSome) ∧
    rows.filter (fun r => r.lapTime.isSome) = rows := by
  have hmem : ∀ r ∈ rows, r.lapTime.isSome := by
    intro r hr
    rw [create_lap_time_chart_some s selected rows h] at hr
    rcases List.mem_flatMap.mp hr with ⟨d, _, hr2⟩
    rcases List.mem_filterMap.mp hr2 with ⟨l, _, he⟩
    exact lapRowOfLap_isSome _ l r he
  exact ⟨hmem, List.filter_eq_self.mpr (fun r hr => hmem r hr)⟩

/-- The rows that `create_lap_time_chart` builds from `exT`. -/
def rowsT : List LapRow := [⟨"1", 1, some 90, "Unknown", none, none, none⟩]

/-- Witness for C1 at the concrete session `exT`. -/
theorem C1_lap_table_nonnull_witness :
    (∀ r ∈ rowsT, r.lapTime.isSome) ∧
    rowsT.filter (fun r => r.lapTime.isSome) = rowsT :=
  C1_lap_table_nonnull exT ["1"] rowsT (by decide)

/-- C8 counterexample: at `exC2` (one driver, one lap, null lap time) the
builder does return the no-data sentinel, but the lap-analysis tab then
displays only its fixed header — no chart and no element conveying a
"no data available" state, since lines 189-201 have no else branch —
refuting the claim's assertion about what the caller renders. -/
theorem C8_counterexample :
    create_lap_time_chart exC2 ["44"] = none ∧
    lap_analysis_widgets exC2 ["44"]
      = [Widget.header "Lap Times Analysis"] := by decide

/-- C8 (amended): an empty driver selection, or one where no lap survives
the non-null lap-time filter, makes `create_lap_time_chart` return the
explicit no-data sentinel `None` (never an empty table); the caller then
skips chart rendering entirely — the tab shows nothing beyond its fixed
header, so no empty chart is drawn, but no "no data available" message is
shown either. -/
theorem C8_no_data_sentinel (s : Session) (selected : List String) :
    (selected = [] → create_lap_time_chart s selected = none) ∧
    (create_lap_time_chart s selected = none ↔
      ∀ d ∈ selected, ∀ l ∈ pick_driver s d, l.lapTime = none) ∧
    (create_lap_time_chart s selected = none →
      lap_analysis_widgets s selected
        = [Widget.header "Lap Times Analysis"]) := by
  refine ⟨?_, ?_, ?_⟩
  · intro h
    subst h
    rfl
  · unfold create_lap_time_chart
    constructor
    · intro h
      intro d hd l hl
      by_cases he : (selected.flatMap (fun d =>
          (pick_driver s d).filterMap (lapRowOfLap (s.abbrevOf d)))).isEmpty
      · rw [List.isEmpty_iff] at he
        rw [List.flatMap_eq_nil_iff] at he
        have h2 := he d hd
        rw [List.filterMap_eq_nil_iff] at h2
        exact (lapRowOfLap_eq_none _ l).mp (h2 l hl)
      · rw [if_neg (by simp [he])] at h
        cases h
    · intro h
      have he : selected.flatMap (fun d =>
          (pick_driver s d).filterMap (lapRowOfLap (s.abbrevOf d))) = [] := by
        rw [List.flatMap_eq_nil_iff]
        intro d hd
        rw [List.filterMap_eq_nil_iff]
        intro l hl
        exact (lapRowOfLap_eq_none _ l).mpr (h d hd l hl)
      rw [he]
      rfl
  · intro h
    unfold lap_analysis_widgets
    rw [h]

/-- Witness for the amended C8: at `exC2` (one lap, null time) the builder
yields the sentinel and the lap-analysis tab shows only its header. -/
theorem C8_no_data_sentinel_witness :
    lap_analysis_widgets exC2 ["44"] = [Widget.header "Lap Times Analysis"] :=
  (C8_no_data_sentinel exC2 ["44"]).2.2 (by decide)

/-- C9: when the session fetch fails, the loader shows the descriptive
error message and returns `None` instead of a session, and the button
handler leaves the previously stored state untouched (no default session is
substituted, no success banner is shown). -/
theorem C9_load_failure (a : AppState) (e : String) :
    load_session_data (Except.error e)
      = (none, some ("Error loading session data: " ++ e)) ∧
    (handle_load_click a (Except.error e)).1 = a ∧
    (handle_load_click a (Except.error e)).2.1
      = some ("Error loading session data: " ++ e) ∧
    (handle_load_click a (Except.error e)).2.2 = false :=
  ⟨rfl, rfl, rfl, rfl⟩

/-- C10 counterexample: with the natural driver order
`["9", "10", "2", "33"]` the widget's default is the first three of the
code-point-sorted list, not the first three of the session's natural
ordering as the claim states. -/
theorem C10_counterexample :
    driver_options exS10 = ["10", "2", "33", "9"] ∧
    driver_default exS10 = ["10", "2", "33"] ∧
    exS10.drivers.take 3 = ["9", "10", "2"] ∧
    driver_default exS10 ≠ exS10.drivers.take 3 := by decide

/-- C10 (amended): the driver multiselect offers exactly the driver
identifiers of the loaded session, but listed in code-point sorted order
(`sorted(session.drivers)`), and it defaults to the first three of that
sorted list. -/
theorem C10_driver_selection (s : Session) :
    (driver_options s).Perm s.drivers ∧
    driver_default s = (driver_options s).take 3 ∧
    (driver_options s).Pairwise (fun a b => strLe a b = true) :=
  ⟨insSort_perm strLe s.drivers, rfl,
    insSort_pairwise strLe strLe_trans strLe_total s.drivers⟩

/-- `avgRowFor` only succeeds on a non-empty lap selection and then copies
the pandas statistics and the raw row count. -/
theorem avgRowFor_some (s : Session) (d : String) (r : AvgRow)
    (h : avgRowFor s d = some r) :
    pick_driver s d ≠ [] ∧ r.driver = d ∧
    r.lapsCompleted = (pick_driver s d).length ∧
    r.averageTime = pandasMean ((pick_driver s d).map (fun l => l.lapTime)) ∧
    r.stdDev = pandasStd ((pick_driver s d).map (fun l => l.lapTime)) := by
  simp only [avgRowFor] at h
  split at h
  · cases h
  · rcases Option.some.inj h with rfl
    refine ⟨?_, rfl, rfl, rfl, rfl⟩
    intro hnil
    simp [hnil] at *

/-- The sample-size count behind `Series.std()` on the lap-time column is
the number of laps with a non-null lap time. -/
theorem stdDev_count (dl : List Lap) :
    ((dl.map (fun l => l.lapTime)).filterMap id).length
      = (validLaps dl).length := by
  rw [List.filterMap_map]
  simpa using length_filterMap_lapTime dl

/-- C2 counterexample: in `exC2` the selected driver has one lap whose lap
time is null, yet a summary row for them is produced, and its reported
completed-lap count is 1 while the driver has 0 laps with a non-null lap
time — refuting both the membership condition and the count equation of the
claim. -/
theorem C2_counterexample :
    (average_lap_times exC2 ["44"]).length = 1 ∧
    (∀ r ∈ average_lap_times exC2 ["44"], r.lapsCompleted = 1) ∧
    (validLaps (pick_driver exC2 "44")).length = 0 := by decide

/-- C2 (amended): a driver appears in the lap-time summary iff they have at
least one lap record of any kind (`not driver_laps.empty`, not "at least one
completed lap"); the reported `Laps Completed` equals the total number of
that driver's lap records, null lap times included; the standard deviation
is present exactly when at least two laps carry a non-null lap time; the
mean is the pandas mean over the non-null lap times; and the table is
sorted ascending by mean lap time (rows without a mean last). -/
theorem C2_summary_amended (s : Session) (selected : List String) :
    (∀ r ∈ average_lap_times s selected,
      ∃ d ∈ selected, r.driver = d ∧ pick_driver s d ≠ [] ∧
        r.lapsCompleted = (pick_driver s d).length ∧
        (r.stdDev.isSome ↔ 2 ≤ (validLaps (pick_driver s d)).length) ∧
        r.averageTime
          = pandasMean ((pick_driver s d).map (fun l => l.lapTime))) ∧
    (∀ d ∈ selected, pick_driver s d ≠ [] →
      ∃ r ∈ average_lap_times s selected, r.driver = d) ∧
    (average_lap_times s selected).Pairwise
      (fun a b => leOpt a.averageTime b.averageTime = true) := by
  refine ⟨?_, ?_, ?_⟩
  · intro r hr
    have hr2 : r ∈ selected.filterMap (avgRowFor s) :=
      (insSort_perm _ _).mem_iff.mp hr
    rcases List.mem_filterMap.mp hr2 with ⟨d, hd, hfd⟩
    rcases avgRowFor_some s d r hfd with ⟨hne, hdr, hlen, havg, hstd⟩
    refine ⟨d, hd, hdr, hne, hlen, ?_, havg⟩
    rw [hstd, pandasStd_isSome, stdDev_count]
  · intro d hd hne
    have hsome : avgRowFor s d
        = some { driver := d,
                 averageTime := pandasMean ((pick_driver s d).map
                   (fun l => l.lapTime)),
                 stdDev := pandasStd ((pick_driver s d).map
                   (fun l => l.lapTime)),
                 lapsCompleted := (pick_driver s d).length } := by
      simp only [avgRowFor]
      rw [if_neg (by simpa [List.isEmpty_iff] using hne)]
    refine ⟨{ driver := d,
              averageTime := pandasMean ((pick_driver s d).map
                (fun l => l.lapTime)),
              stdDev := pandasStd ((pick_driver s d).map
                (fun l => l.lapTime)),
              lapsCompleted := (pick_driver s d).length }, ?_, rfl⟩
    exact (insSort_perm _ _).mem_iff.mpr
      (List.mem_filterMap.mpr ⟨d, hd, hsome⟩)
  · exact insSort_pairwise _
      (fun a b c h1 h2 => leOpt_trans a.averageTime b.averageTime c.averageTime h1 h2)
      (fun a b => leOpt_total a.averageTime b.averageTime) _

/-- Witness for the amended C2 at the concrete session `exC2`. -/
theorem C2_summary_amended_witness :
    ∃ r ∈ average_lap_times exC2 ["44"], r.driver = "44" :=
  (C2_summary_amended exC2 ["44"]).2.1 "44" (by decide) (by decide)

/-- C3: in the fastest-laps table, each selected driver with at least one
completed lap gets exactly the lap that is no slower than every other of
their completed laps, ties resolved to the earliest lap number (given that
the session lists each driver's laps in ascending lap-number order); drivers
with zero valid laps are omitted rather than shown as a null row; and the
table is sorted non-decreasing by lap time. -/
theorem C3_fastest_laps (s : Session) (selected : List String)
    (hnum : ∀ d ∈ selected, (pick_driver s d).Pairwise
      (fun a b => a.lapNumber < b.lapNumber)) :
    (∀ d ∈ selected, validLaps (pick_driver s d) ≠ [] →
      ∃ r ∈ fastest_laps s selected, r.driver = d ∧
        ∃ t, r.time = some t ∧
          (∀ l ∈ validLaps (pick_driver s d), t ≤ timeVal l) ∧
          (∀ l ∈ validLaps (pick_driver s d),
            timeVal l = t → r.lap ≤ l.lapNumber)) ∧
    (∀ r ∈ fastest_laps s selected,
      ∃ d ∈ selected, r.driver = d ∧ validLaps (pick_driver s d) ≠ []) ∧
    (fastest_laps s selected).Pairwise
      (fun a b => leOpt a.time b.time = true) := by
  refine ⟨?_, ?_, ?_⟩
  · intro d hd hv
    cases hf : pick_fastest (pick_driver s d) with
    | none => exact absurd ((pick_fastest_none _).mp hf) hv
    | some l =>
      rcases pick_fastest_spec _ l hf with ⟨hlv, hmin⟩
      refine ⟨{ driver := d, time := l.lapTime, lap := l.lapNumber,
                speed := l.speedI2 }, ?_, rfl, timeVal l, ?_, ?_, ?_⟩
      · refine (insSort_perm _ _).mem_iff.mpr (List.mem_filterMap.mpr
          ⟨d, hd, ?_⟩)
        rw [hf]
        rfl
      · exact validLaps_time _ l hlv
      · exact hmin
      · intro x hx ht
        exact pick_fastest_earliest _ l (hnum d hd) hf x hx ht
  · intro r hr
    have hr2 : r ∈ selected.filterMap (fun d =>
        (pick_fastest (pick_driver s d)).map (fun l =>
          { driver := d, time := l.lapTime, lap := l.lapNumber,
            speed := l.speedI2 })) :=
      (insSort_perm _ _).mem_iff.mp hr
    rcases List.mem_filterMap.mp hr2 with ⟨d, hd, hfd⟩
    rcases Option.map_eq_some'.mp hfd with ⟨l, hl, hre⟩
    refine ⟨d, hd, ?_, ?_⟩
    · rw [← hre]
    · intro hnil
      rw [(pick_fastest_none _).mpr hnil] at hl
      cases hl
  · exact insSort_pairwise _
      (fun a b c h1 h2 => leOpt_trans a.time b.time c.time h1 h2)
      (fun a b => leOpt_total a.time b.time) _

/-- Witness for C3 at `exF`: driver A's reported fastest lap is a minimum
over A's completed laps with the earliest-lap tie-break. -/
theorem C3_fastest_laps_witness :
    ∃ r ∈ fastest_laps exF ["A", "B"], r.driver = "A" ∧
      ∃ t, r.time = some t ∧
        (∀ l ∈ validLaps (pick_driver exF "A"), t ≤ timeVal l) ∧
        (∀ l ∈ validLaps (pick_driver exF "A"),
          timeVal l = t → r.lap ≤ l.lapNumber) :=
  (C3_fastest_laps exF ["A", "B"] (by decide)).1 "A" (by decide) (by decide)

/-- The multiplicative reading of a pandas mean over one sector column:
absent iff no present value, and any present mean times the count of
present values gives back their sum. -/
theorem sector_cell_spec (rs : List LapRow) (f : LapRow → Option ℚ) :
    (pandasMean (rs.map f) = none ↔ rs.filterMap f = []) ∧
    (∀ m, pandasMean (rs.map f) = some m →
      m * (rs.filterMap f).length = (rs.filterMap f).sum) := by
  constructor
  · rw [pandasMean_none_iff, List.filterMap_map]
    simp
  · intro m hm
    have := pandasMean_mul (rs.map f) m hm
    rwa [List.filterMap_map, Function.id_comp] at this

/-- C4: in the average-sector-times view built from the emitted lap rows,
each entry belongs to a driver with at least one emitted row; for each of
the three sectors the cell is absent exactly when that driver has no row
with a present value for that sector (never zero), and a present cell is
the arithmetic mean of the present values (stated multiplicatively: mean
times count equals sum); and every driver with an emitted row has an
entry. -/
theorem C4_sector_averages (s : Session) (selected : List String)
    (rows : List LapRow)
    (_hrows : create_lap_time_chart s selected = some rows) :
    (∀ e ∈ sector_averages rows,
      e.1 ∈ rows.map (fun r => r.driver) ∧
      ((e.2.1 = none ↔
          (rows.filter (fun r => r.driver == e.1)).filterMap
            (fun r => r.sector1) = []) ∧
        ∀ m, e.2.1 = some m →
          m * ((rows.filter (fun r => r.driver == e.1)).filterMap
              (fun r => r.sector1)).length
            = ((rows.filter (fun r => r.driver == e.1)).filterMap
              (fun r => r.sector1)).sum) ∧
      ((e.2.2.1 = none ↔
          (rows.filter (fun r => r.driver == e.1)).filterMap
            (fun r => r.sector2) = []) ∧
        ∀ m, e.2.2.1 = some m →
          m * ((rows.filter (fun r => r.driver == e.1)).filterMap
              (fun r => r.sector2)).length
            = ((rows.filter (fun r => r.driver == e.1)).filterMap
              (fun r => r.sector2)).sum) ∧
      ((e.2.2.2 = none ↔
          (rows.filter (fun r => r.driver == e.1)).filterMap
            (fun r => r.sector3) = []) ∧
        ∀ m, e.2.2.2 = some m →
          m * ((rows.filter (fun r => r.driver == e.1)).filterMap
              (fun r => r.sector3)).length
            = ((rows.filter (fun r => r.driver == e.1)).filterMap
              (fun r => r.sector3)).sum)) ∧
    (∀ d ∈ rows.map (fun r => r.driver),
      ∃ e ∈ sector_averages rows, e.1 = d) := by
  constructor
  · intro e he
    rcases List.mem_map.mp he with ⟨d, hd, hde⟩
    have hd2 : d ∈ rows.map (fun r => r.driver) :=
      (mem_uniqueKeys _ d).mp ((insSort_perm _ _).mem_iff.mp hd)
    subst hde
    refine ⟨hd2, ?_, ?_, ?_⟩
    · exact sector_cell_spec (rows.filter (fun r => r.driver == d))
        (fun r => r.sector1)
    · exact sector_cell_spec (rows.filter (fun r => r.driver == d))
        (fun r => r.sector2)
    · exact sector_cell_spec (rows.filter (fun r => r.driver == d))
        (fun r => r.sector3)
  · intro d hd
    refine ⟨(d, (pandasMean ((rows.filter (fun r => r.driver == d)).map
        (fun r => r.sector1)),
      pandasMean ((rows.filter (fun r => r.driver == d)).map
        (fun r => r.sector2)),
      pandasMean ((rows.filter (fun r => r.driver == d)).map
        (fun r => r.sector3)))), ?_, rfl⟩
    exact List.mem_map.mpr ⟨d,
      (insSort_perm _ _).mem_iff.mpr ((mem_uniqueKeys _ d).mpr hd), rfl⟩

/-- The lap table that `create_lap_time_chart` builds from `exF`. -/
def rowsF : List LapRow :=
  [⟨"A", 1, some 91, "Unknown", some 30, none, none⟩,
   ⟨"A", 2, some 90, "Unknown", some 32, none, none⟩,
   ⟨"B", 1, some 89, "Unknown", none, none, none⟩]

/-- Witness for C4 at the concrete lap table of `exF`. -/
theorem C4_sector_averages_witness :
    ∃ e ∈ sector_averages rowsF, e.1 = "A" :=
  (C4_sector_averages exF ["A", "B"] rowsF (by decide)).2 "A" (by decide)

unseal Rat.mul in
/-- C5 counterexample: requesting telemetry for driver `"1"` at lap 5 in
`exT`, where that driver has no lap 5, does not yield the absent sentinel —
`pick_lap` returns an empty (non-`None`) selection and the function builds a
figure from it, refuting the claim's "no matching lap exists implies absent
sentinel" for the explicit-lap-number path. -/
theorem C5_counterexample :
    pick_lap (pick_driver exT "1") 5 = [] ∧
    create_telemetry_plot exT "1" (some 5) ≠ none := by decide

/-- C5 (amended): with an explicit non-zero lap number the returned figure's
traces are drawn exactly from that driver's laps with that lap number (and
the title mentions only that number); with no lap number the figure is built
from the driver's minimum-lap-time lap; the absent sentinel `None` is
returned only on the no-lap-number (or zero) path when the driver has no
timed lap, and the caller then renders nothing; an explicit nonexistent lap
number instead produces a figure over the empty selection. -/
theorem C5_telemetry_lookup (s : Session) (d : String) :
    (∀ n : Nat, n ≠ 0 →
      ∃ f, create_telemetry_plot s d (some n) = some f ∧
        f.speedY = (pick_lap (pick_driver s d) n).flatMap
          (fun l => l.telemetry.speed) ∧
        f.speedX = (pick_lap (pick_driver s d) n).flatMap
          (fun l => l.telemetry.distance) ∧
        (∀ m ∈ f.titleLaps, m = n)) ∧
    (∀ l, pick_fastest (pick_driver s d) = some l →
      create_telemetry_plot s d none = some (buildFig [l]) ∧
      l ∈ validLaps (pick_driver s d) ∧
      (∀ x ∈ validLaps (pick_driver s d), timeVal l ≤ timeVal x)) ∧
    (pick_fastest (pick_driver s d) = none →
      create_telemetry_plot s d none = none ∧
      render_telemetry (create_telemetry_plot s d none) = none) := by
  refine ⟨?_, ?_, ?_⟩
  · intro n hn
    refine ⟨buildFig (pick_lap (pick_driver s d) n), ?_, rfl, rfl, ?_⟩
    · simp [create_telemetry_plot, hn]
    · intro m hm
      rcases List.mem_map.mp hm with ⟨l, hl, hml⟩
      have := List.of_mem_filter hl
      rw [← hml]
      exact eq_of_beq this
  · intro l hf
    rcases pick_fastest_spec _ l hf with ⟨hlv, hmin⟩
    refine ⟨?_, hlv, hmin⟩
    simp [create_telemetry_plot, hf]
  · intro hf
    have h0 : create_telemetry_plot s d none = none := by
      simp [create_telemetry_plot, hf]
    exact ⟨h0, by rw [h0]; rfl⟩

/-- Witness for the amended C5 at `exT`, lap 1. -/
theorem C5_telemetry_lookup_witness :
    ∃ f, create_telemetry_plot exT "1" (some 1) = some f ∧
      f.speedY = (pick_lap (pick_driver exT "1") 1).flatMap
        (fun l => l.telemetry.speed) ∧
      f.speedX = (pick_lap (pick_driver exT "1") 1).flatMap
        (fun l => l.telemetry.distance) ∧
      (∀ m ∈ f.titleLaps, m = 1) :=
  (C5_telemetry_lookup exT "1").1 1 (by decide)

unseal Rat.mul in
/-- C6 counterexample: in `exT` the driver's fastest lap exists (lap 1),
yet requesting the nonexistent lap 5 does not fall back to it — the result
differs from the fastest-lap figure, refuting the claimed fallback. -/
theorem C6_counterexample :
    pick_lap (pick_driver exT "1") 5 = [] ∧
    pick_fastest (pick_driver exT "1") = some lapT1 ∧
    create_telemetry_plot exT "1" (some 5)
      ≠ create_telemetry_plot exT "1" none := by decide

/-- C6 (amended): only an absent (or zero, hence falsy) lap-number
selection falls back to the driver's fastest lap; an explicit lap number
not present for the chosen driver is not detected — the exact-lap selection
is used as is, and an empty selection yields a figure over no samples
rather than a fallback or an error. -/
theorem C6_fallback (s : Session) (d : String) :
    create_telemetry_plot s d none
      = (pick_fastest (pick_driver s d)).map (fun l => buildFig [l]) ∧
    create_telemetry_plot s d (some 0)
      = (pick_fastest (pick_driver s d)).map (fun l => buildFig [l]) ∧
    (∀ n : Nat, n ≠ 0 → pick_lap (pick_driver s d) n = [] →
      create_telemetry_plot s d (some n) = some (buildFig [])) := by
  refine ⟨rfl, rfl, ?_⟩
  intro n hn he
  simp [create_telemetry_plot, hn, he]

/-- Witness for the amended C6: the nonexistent lap 5 in `exT` produces the
empty-selection figure. -/
theorem C6_fallback_witness :
    create_telemetry_plot exT "1" (some 5) = some (buildFig []) :=
  (C6_fallback exT "1").2.2 5 (by decide) (by decide)

/-- Every figure returned by `create_telemetry_plot` is built from a lap
selection taken among the chosen driver's laps. -/
theorem create_telemetry_plot_shape (s : Session) (d : String)
    (ln : Option Nat) (f : Fig) (hf : create_telemetry_plot s d ln = some f) :
    ∃ sel, (∀ l ∈ sel, l ∈ pick_driver s d) ∧ f = buildFig sel := by
  cases ln with
  | some n =>
    by_cases hn : n ≠ 0
    · simp only [create_telemetry_plot, if_pos hn] at hf
      refine ⟨pick_lap (pick_driver s d) n, ?_, (Option.some.inj hf).symm⟩
      intro l hl
      exact List.mem_of_mem_filter hl
    · simp only [create_telemetry_plot, if_neg hn] at hf
      rcases Option.map_eq_some'.mp hf with ⟨l, hl, hfe⟩
      refine ⟨[l], ?_, hfe.symm⟩
      intro x hx
      rcases List.mem_cons.mp hx with h2 | h2
      · rw [h2]
        exact List.mem_of_mem_filter (pick_fastest_spec _ l hl).1
      · simp at h2
  | none =>
    simp only [create_telemetry_plot] at hf
    rcases Option.map_eq_some'.mp hf with ⟨l, hl, hfe⟩
    refine ⟨[l], ?_, hfe.symm⟩
    intro x hx
    rcases List.mem_cons.mp hx with h2 | h2
    · rw [h2]
      exact List.mem_of_mem_filter (pick_fastest_spec _ l hl).1
    · simp at h2

/-- C7: whenever the brake channel is present, the brake trace of the
returned figure is the pointwise 100-multiple of the raw stored 0-1 brake
values of the selected laps — the stored telemetry itself is left as is,
only the displayed copy is scaled — and therefore every displayed brake
value lies in [0, 100]. -/
theorem C7_brake_scaled (s : Session) (d : String) (ln : Option Nat)
    (f : Fig) (hf : create_telemetry_plot s d ln = some f)
    (hraw : ∀ l ∈ s.laps, ∀ b ∈ l.telemetry.brake.getD [], 0 ≤ b ∧ b ≤ 1) :
    ∃ sel, (∀ l ∈ sel, l ∈ pick_driver s d) ∧
      f.brake = (selTelemetry sel).brake.map (List.map (fun b => b * 100)) ∧
      (∀ bs, f.brake = some bs → ∀ b ∈ bs, 0 ≤ b ∧ b ≤ 100) := by
  rcases create_telemetry_plot_shape s d ln f hf with ⟨sel, hsub, hfe⟩
  subst hfe
  refine ⟨sel, hsub, rfl, ?_⟩
  intro bs hbs
  simp only [buildFig] at hbs
  rcases Option.map_eq_some'.mp hbs with ⟨raw, hraw2, hbse⟩
  have hrawe : raw = sel.flatMap (fun l => l.telemetry.brake.getD []) := by
    simp only [selTelemetry] at hraw2
    split at hraw2
    · cases hraw2
    · exact (Option.some.inj hraw2).symm
  intro b hb
  rw [← hbse] at hb
  rcases List.mem_map.mp hb with ⟨b0, hb0, hbe⟩
  rw [hrawe] at hb0
  rcases List.mem_flatMap.mp hb0 with ⟨l, hl, hbl⟩
  have hls : l ∈ s.laps := List.mem_of_mem_filter (hsub l hl)
  rcases hraw l hls b0 hbl with ⟨h0, h1⟩
  constructor
  · rw [← hbe]
    exact mul_nonneg h0 (by norm_num)
  · rw [← hbe]
    calc b0 * 100 ≤ 1 * 100 := mul_le_mul_of_nonneg_right h1 (by norm_num)
      _ = 100 := one_mul 100

/-- The figure `create_telemetry_plot` returns for `exT`, driver 1, lap 1:
brake displayed as percentages of the raw 0-1 values. -/
def figT : Fig :=
  ⟨[0, 100], [280, 300], some [50, 100], some [0, 100], [1]⟩

unseal Rat.mul in
/-- Witness for C7 at `exT`: the displayed brake values 0 and 100 are the
raw 0 and 1 scaled by 100 and lie in [0, 100]. -/
theorem C7_brake_scaled_witness :
    ∃ sel, (∀ l ∈ sel, l ∈ pick_driver exT "1") ∧
      figT.brake = (selTelemetry sel).brake.map (List.map (fun b => b * 100)) ∧
      (∀ bs, figT.brake = some bs → ∀ b ∈ bs, 0 ≤ b ∧ b ≤ 100) :=
  C7_brake_scaled exT "1" (some 1) figT (by decide) (by decide)
